import Mathlib

/-!
Shallow embedding of the compilation core of the yarn-slinger repository,
together with theorems settling the frozen claims about it.

The embedding follows the Rust source files under
`crates/compiler/src/` (`string_table_manager.rs`,
`compilation_steps/add_tracking_declarations.rs`, `output.rs`,
`visitors/type_check_visitor.rs`).  Rust `panic!`-like control flow
(`todo!()`, `unreachable!()`, `Option::unwrap` on `None`) is embedded as
`Except.error`; everything else is embedded as total functions.

Types that the compiler crate imports from the core crate
(`yarnspinner_core`: `Type`, `FunctionType`, `Convertible`, `Operator`,
the `Declaration` and `Diagnostic` builders, the `Library` helper) are
not part of the given sources; the definitions below that stand in for
them are modelled from the specification and are marked as such in
their doc comments.
-/

namespace YarnSlinger

/-- The Yarn type system, from the spec section 3: a closed tagged union
`String`, `Number`, `Boolean`, `Function { parameters, return_type }`,
where a missing `Option` entry means "not yet bound". This mirrors
`yarnspinner_core::types::Type` as used by the compiler sources. -/
inductive YType where
  | string
  | number
  | boolean
  | function (parameters : List (Option YType)) (returnType : Option YType)
deriving Repr

/-- Mirror of `yarnspinner_core::types::FunctionType`: a parameter list of
optional (possibly not-yet-bound) types and an optional return type.
`Type::Function` carries exactly this data. -/
structure FunctionType where
  parameters : List (Option YType) := []
  returnType : Option YType := none
deriving Repr

/-- Modelled from the spec: `FunctionType::default()` has an empty
parameter list and an unbound return type. -/
def FunctionType.default : FunctionType := {}

/-- Modelled from the spec: `FunctionType::set_return_type` replaces the
return type (the argument is an `impl Into<Option<Type>>`). -/
def FunctionType.setReturnType (ft : FunctionType) (t : Option YType) : FunctionType :=
  { ft with returnType := t }

/-- Modelled from the spec: `FunctionType::add_parameter` appends one
(possibly unbound) parameter type. -/
def FunctionType.addParameter (ft : FunctionType) (t : Option YType) : FunctionType :=
  { ft with parameters := ft.parameters ++ [t] }

/-- `Type::from(function_type)` in the source wraps a `FunctionType`
value into the `Type::Function` variant. -/
def FunctionType.toYType (ft : FunctionType) : YType :=
  .function ft.parameters ft.returnType

/-- Mirror of `yarnspinner_core`'s `Convertible`: a tagged scalar value
(number, string, or boolean), used for declaration default values.
The source stores numbers as floating point; every value handled by the
claims is exactly representable, so rationals are used here. -/
inductive Convertible where
  | number (value : Rat)
  | string (value : String)
  | boolean (value : Bool)
deriving Repr, DecidableEq

/-- A source position, as used by `Declaration::with_range` (`Position {
line, character }` in the source). -/
structure Position where
  line : Nat
  character : Nat
deriving Repr, DecidableEq

/-- Diagnostic severity, spec section 3: `severity ∈ {error, warning}`. -/
inductive DiagnosticSeverity where
  | error
  | warning
deriving Repr, DecidableEq

/-- Mirror of the compiler's `Diagnostic` (spec section 3: `(file_name,
range, severity, message, context_snippet)`). -/
structure Diagnostic where
  fileName : Option String := none
  range : Option (Position × Position) := none
  message : String := ""
  context : Option String := none
  severity : DiagnosticSeverity := .error
deriving Repr, DecidableEq

/-- Modelled from the spec: `Diagnostic::from_message` builds a
diagnostic carrying the given message; its severity defaults to `Error`
(errors are the failure-causing severity, spec section 7). -/
def Diagnostic.fromMessage (message : String) : Diagnostic :=
  { message := message }

/-- `Diagnostic::with_file_name` from the source usage: records the file
the diagnostic refers to. -/
def Diagnostic.withFileName (d : Diagnostic) (fileName : String) : Diagnostic :=
  { d with fileName := some fileName }

/-- The source-interval key used by the visitor's `types` and `hints`
maps (`HashableInterval` wrapping `antlr_rust::interval_set::Interval`,
ordered and hashed by its `(a, b)` token-index pair). -/
structure Interval where
  a : Int
  b : Int
deriving Repr, DecidableEq

/-- Lexicographic comparison on intervals, mirroring `Ord for
HashableInterval` in `type_check_visitor.rs` (`a` first, then `b`). -/
def Interval.le (x y : Interval) : Bool :=
  x.a < y.a || (x.a == y.a && x.b <= y.b)

/-- The context data a parse-tree node exposes to the visitor: its
source interval (for the `types`/`hints` maps), start/stop token
positions, its text without whitespace (`get_text`), its text with
whitespace (`get_text_with_whitespace`), and the text of its last token
(`ctx.stop().get_text()`). ANTLR lines are 1-based and columns 0-based. -/
structure CtxInfo where
  interval : Interval
  startLine : Nat
  startColumn : Nat
  stopLine : Nat
  stopColumn : Nat
  text : String := ""
  textWithWhitespace : String := ""
  stopTokenText : String := ""
deriving Repr, DecidableEq

/-- Modelled from the spec: `Diagnostic::read_parser_rule_context`
copies the source range and context snippet of the given parse-tree
context onto the diagnostic. -/
def Diagnostic.readParserRuleContext (d : Diagnostic) (info : CtxInfo) : Diagnostic :=
  { d with
    range := some (⟨info.startLine, info.startColumn⟩, ⟨info.stopLine, info.stopColumn⟩)
    context := some info.textWithWhitespace }

/-- Mirror of the compiler's `Declaration` (spec section 3): name,
optional type, default value, description, source origin, range, and
the implicit flag. -/
structure Declaration where
  name : String := ""
  type : Option YType := none
  defaultValue : Option Convertible := none
  description : String := ""
  sourceFileName : Option String := none
  sourceNodeName : Option String := none
  range : Option (Position × Position) := none
  isImplicit : Bool := false
deriving Repr

/-- `Declaration::default()` in the source. -/
def Declaration.default : Declaration := {}

/-- Modelled from the spec: `Declaration::new(name, type)` builds a
declaration with the given name and concrete type. -/
def Declaration.new (name : String) (t : YType) : Declaration :=
  { name := name, type := some t }

/-- `Declaration::with_name` from the source usage. -/
def Declaration.withName (d : Declaration) (name : String) : Declaration :=
  { d with name := name }

/-- `Declaration::with_type` from the source usage; the argument is an
`impl Into<Option<Type>>`, so it may also record an unknown type. -/
def Declaration.withType (d : Declaration) (t : Option YType) : Declaration :=
  { d with type := t }

/-- `Declaration::with_default_value` from the source usage. -/
def Declaration.withDefaultValue (d : Declaration) (v : Convertible) : Declaration :=
  { d with defaultValue := some v }

/-- `Declaration::with_description` from the source usage. -/
def Declaration.withDescription (d : Declaration) (description : String) : Declaration :=
  { d with description := description }

/-- `Declaration::with_source_file_name` from the source usage. -/
def Declaration.withSourceFileName (d : Declaration) (f : String) : Declaration :=
  { d with sourceFileName := some f }

/-- `Declaration::with_source_node_name_optional` from the source usage. -/
def Declaration.withSourceNodeNameOptional (d : Declaration) (n : Option String) : Declaration :=
  { d with sourceNodeName := n }

/-- `Declaration::with_range` from the source usage (an inclusive
start..=end range of positions). -/
def Declaration.withRange (d : Declaration) (r : Position × Position) : Declaration :=
  { d with range := some r }

/-- `Declaration::with_implicit` from the source usage. -/
def Declaration.withImplicit (d : Declaration) : Declaration :=
  { d with isImplicit := true }

/-- Mirror of `crate::output::StringInfo` (spec section 3): the
localizable-line record stored in the string table. Fields not involved
in any claim (metadata, substitution list) are carried as plain data. -/
structure StringInfo where
  text : String := ""
  nodeName : String := ""
  lineNumber : Nat := 0
  fileName : String := ""
  isImplicitTag : Bool := false
  metadata : List String := []
deriving Repr, DecidableEq

/-- Association-list model of a `HashMap` insert: replaces the value of
an existing key in place, otherwise appends the new binding. Keyed maps
in the sources (`string_table`, the visitor's `types` and `hints`) use
this model; their lengths coincide with `HashMap::len` because keys
stay unique. -/
def hashMapInsert [BEq κ] (map : List (κ × α)) (key : κ) (value : α) : List (κ × α) :=
  if map.any (fun kv => kv.fst == key) then
    map.map (fun kv => if kv.fst == key then (key, value) else kv)
  else
    map ++ [(key, value)]

/-- Association-list lookup, the model of `HashMap::get`. -/
def hashMapGet [BEq κ] (map : List (κ × α)) (key : κ) : Option α :=
  (map.find? (fun kv => kv.fst == key)).map Prod.snd

/-- Mirror of `StringTableManager` (`string_table_manager.rs`): a map
from line ids to `StringInfo`. -/
structure StringTableManager where
  table : List (String × StringInfo) := []
deriving Repr, DecidableEq

/-- `StringTableManager::insert` (`string_table_manager.rs` lines
22-50): with an explicit line id, store under that id with
`is_implicit_tag = false`; without one, generate
`line:<file>-<node>-<len>` (where `<len>` is the current table size)
and store under it with `is_implicit_tag = true`. Returns the id used
for insertion together with the updated table. -/
def StringTableManager.insert (m : StringTableManager) (lineId : Option String)
    (stringInfo : StringInfo) : String × StringTableManager :=
  let (lineId, stringInfo) :=
    match lineId with
    | some lineId => (lineId, { stringInfo with isImplicitTag := false })
    | none =>
      let lineId :=
        "line:" ++ stringInfo.fileName ++ "-" ++ stringInfo.nodeName ++ "-"
          ++ toString m.table.length
      (lineId, { stringInfo with isImplicitTag := true })
  (lineId, ⟨hashMapInsert m.table lineId stringInfo⟩)

/-- `StringTableManager::contains_implicit_string_tags`
(`string_table_manager.rs` lines 12-14). -/
def StringTableManager.containsImplicitStringTags (m : StringTableManager) : Bool :=
  m.table.any (fun kv => kv.snd.isImplicitTag)

/-- Modelled from the spec: the S4 string-extraction stage (not under
`src/`) fills `StringInfo::file_name` with the source file name with
its extension stripped before calling `StringTableManager::insert`
(spec section 4.1: ids are `line:<file>-<node>-<n>`, section 8:
`line:<file-without-ext>-<node>-<ordinal>`). This strips a final
`.`-separated extension from a file name. -/
def stripExtension (fileName : String) : String :=
  match (fileName.data.reverse.dropWhile (fun c => c ≠ '.')) with
  | [] => fileName
  | _ :: rest => ⟨rest.reverse⟩

/-- Modelled from the spec:
`Library::generate_unique_visited_variable_for_node` (in the core
crate, not under `src/`) produces the tracking-variable name for a
node; spec sections 4.4 and 9 fix the format as
`$Yarn.Internal.Visiting.<node>`. -/
def generateUniqueVisitedVariableForNode (node : String) : String :=
  "$Yarn.Internal.Visiting." ++ node

/-- The part of the intermediate compilation state
(`CompilationIntermediate`, spec section 3) that
`add_tracking_declarations` reads and writes: the tracking-node set and
the two declaration lists. -/
structure CompilationIntermediate where
  knownVariableDeclarations : List Declaration := []
  derivedVariableDeclarations : List Declaration := []
  trackingNodes : List String := []
deriving Repr

/-- The per-node closure of `add_tracking_declarations`
(`compilation_steps/add_tracking_declarations.rs` lines 11-18): a
`Number` declaration named by the library helper, with default value
`0` and the visit-tracking description. -/
def trackingDeclarationForNode (node : String) : Declaration :=
  (((Declaration.new (generateUniqueVisitedVariableForNode node) .number).withDefaultValue
    (.number 0)).withDescription
    ("The generated variable for tracking visits of node " ++ node))

/-- `add_tracking_declarations`
(`compilation_steps/add_tracking_declarations.rs` lines 5-31): for each
tracking node, build its tracking declaration, and extend both
`known_variable_declarations` and `derived_variable_declarations` with
the resulting list. -/
def addTrackingDeclarations (state : CompilationIntermediate) : CompilationIntermediate :=
  let trackingDeclarations := state.trackingNodes.map trackingDeclarationForNode
  { state with
    knownVariableDeclarations := state.knownVariableDeclarations ++ trackingDeclarations
    derivedVariableDeclarations := state.derivedVariableDeclarations ++ trackingDeclarations }

/-- Mirror of `yarn_slinger_core::prelude::Program` as far as the
compiler sources use it: a sequence of named nodes. -/
structure Program where
  nodes : List String := []
deriving Repr, DecidableEq

/-- Modelled from the spec: `Program::combine` (core crate, not under
`src/`) concatenates the per-file programs preserving node order, and
yields `None` when there are no programs to combine (spec section 4.6). -/
def Program.combine (programs : List Program) : Option Program :=
  if programs.isEmpty then none
  else some ⟨(programs.map Program.nodes).flatten⟩

/-- Mirror of `DebugInfo` as a map value in `Compilation::debug_info`;
its contents are opaque to `combine`. -/
structure DebugInfo where
  fileName : String := ""
  nodeName : String := ""
deriving Repr, DecidableEq

/-- Mirror of `Compilation` (`output.rs` lines 24-82): the final result
of a compilation. -/
structure Compilation where
  program : Option Program := none
  stringTable : List (String × StringInfo) := []
  declarations : List Declaration := []
  containsImplicitStringTags : Bool := false
  fileTags : List (String × List String) := []
  warnings : List Diagnostic := []
  debugInfo : List (String × DebugInfo) := []
deriving Repr

/-- `HashMap::extend` on an association-list model: later entries
overwrite earlier ones key by key. -/
def hashMapExtend [BEq κ] (map : List (κ × α)) (other : List (κ × α)) : List (κ × α) :=
  other.foldl (fun acc kv => hashMapInsert acc kv.fst kv.snd) map

/-- The loop body of `Compilation::combine` (`output.rs` lines 96-102):
each compilation's program is taken with `.unwrap()` — embedded as an
`Except.error` when `program` is `None` — and the other fields are
accumulated. -/
def Compilation.combineLoop (compilations : List Compilation)
    (programs : List Program) (declarations : List Declaration)
    (tags : List (String × List String)) (diagnostics : List Diagnostic)
    (nodeDebugInfos : List (String × DebugInfo)) :
    Except String (List Program × List Declaration × List (String × List String)
      × List Diagnostic × List (String × DebugInfo)) :=
  match compilations with
  | [] => .ok (programs, declarations, tags, diagnostics, nodeDebugInfos)
  | compilation :: rest =>
    match compilation.program with
    | none => .error "called Option::unwrap() on a None value"
    | some program =>
      Compilation.combineLoop rest (programs ++ [program])
        (declarations ++ compilation.declarations)
        (hashMapExtend tags compilation.fileTags)
        (diagnostics ++ compilation.warnings)
        (hashMapExtend nodeDebugInfos compilation.debugInfo)

/-- `Compilation::combine` (`output.rs` lines 86-114): accumulate every
per-file compilation (unwrapping each `program`), combine the programs,
and assemble the final `Compilation` with the string table and its
implicit-tag flag. -/
def Compilation.combine (compilations : List Compilation)
    (stringTableManager : StringTableManager) : Except String Compilation := do
  let (programs, declarations, tags, diagnostics, nodeDebugInfos) ←
    Compilation.combineLoop compilations [] [] [] [] []
  let combinedProgram := Program.combine programs
  let containsImplicitStringTags := stringTableManager.containsImplicitStringTags
  .ok
    { program := combinedProgram
      stringTable := stringTableManager.table
      declarations := declarations
      debugInfo := nodeDebugInfos
      containsImplicitStringTags := containsImplicitStringTags
      fileTags := tags
      warnings := diagnostics }

/-- Mirror of `rusty_yarn_spinner_core::prelude::Operator`: the
operators a Yarn expression can use (spec section 4.3.4). -/
inductive Operator where
  | and
  | or
  | xor
  | not
  | unaryMinus
  | add
  | minus
  | multiply
  | divide
  | modulo
  | equalTo
  | notEqualTo
  | greaterThan
  | greaterThanOrEqualTo
  | lessThan
  | lessThanOrEqualTo
deriving Repr, DecidableEq

/-- Modelled from the spec: the operator method table of the built-in
types (`t.properties().methods.contains_key(op)` in the source, whose
`Type::properties` lives in the core crate). The supported operators
per type follow the permitted-operand table of spec section 4.3.4:
`Number` supports arithmetic, comparison and equality; `String`
supports `+` and equality; `Boolean` supports the logical operators and
equality; a function type supports none. -/
def typeHasMethod : YType → Operator → Bool
  | .number, op =>
    match op with
    | .add | .minus | .multiply | .divide | .modulo | .unaryMinus
    | .equalTo | .notEqualTo
    | .greaterThan | .greaterThanOrEqualTo | .lessThan | .lessThanOrEqualTo => true
    | _ => false
  | .string, op =>
    match op with
    | .add | .equalTo | .notEqualTo => true
    | _ => false
  | .boolean, op =>
    match op with
    | .and | .or | .xor | .not | .equalTo | .notEqualTo => true
    | _ => false
  | .function _ _, _ => false

/-- Modelled from the spec: `Type::EXPLICITLY_CONSTRUCTABLE` (core
crate) lists the built-in types, in the order the spec section 3 names
them (`String`, `Number`, `Boolean`). -/
def explicitlyConstructable : List YType :=
  [.string, .number, .boolean]

/-- `t.properties().name` (core crate): the display name of a type,
following the spec section 3 type names. -/
def typeName : YType → String
  | .string => "String"
  | .number => "Number"
  | .boolean => "Boolean"
  | .function _ _ => "Function"

mutual

/-- Structural equality of Yarn types (the core crate derives equality
for `Type`). -/
def ytypeBeq : YType → YType → Bool
  | .string, .string => true
  | .number, .number => true
  | .boolean, .boolean => true
  | .function ps r, .function qs s => optListBeq ps qs && optBeq r s
  | _, _ => false

/-- Structural equality of optional Yarn types. -/
def optBeq : Option YType → Option YType → Bool
  | none, none => true
  | some a, some b => ytypeBeq a b
  | _, _ => false

/-- Structural equality of lists of optional Yarn types. -/
def optListBeq : List (Option YType) → List (Option YType) → Bool
  | [], [] => true
  | a :: as1, b :: bs1 => optBeq a b && optListBeq as1 bs1
  | _, _ => false

end

/-- Modelled from the spec: `is_sub_type_of` on `Option<Type>` (the
`SubTypeOf` trait of the core crate). Every type is a subtype of
itself, and an unbound (`None`) type is compatible with anything
(spec section 4.3: `None` means "not yet inferred"). -/
def isSubTypeOf (a b : Option YType) : Bool :=
  match a, b with
  | none, _ => true
  | _, none => true
  | some x, some y => ytypeBeq x y

/-- Modelled from the spec: `TypeOptionFormat::format` (core crate)
renders an optional type for an error message, with a placeholder for
an unbound type. -/
def typeFormat : Option YType → String
  | none => "undefined"
  | some t => typeName t

/-- The leading words of the cannot-determine-variable-type error
message, named so theorems can state what the message begins with. -/
def cannotDetermineVariableTypePhrase : String :=
  "Can\x27t figure out the type of variable"

/-- `format_cannot_determine_variable_type_error`
(`type_check_visitor.rs` lines 705-707). -/
def formatCannotDetermineVariableTypeError (name : String) : String :=
  cannotDetermineVariableTypePhrase ++ " " ++ name ++
    " given its context. Specify its type with a <<declare>> statement."

/-- The null-literal error message of `visit_valueNull`
(`type_check_visitor.rs` line 169). -/
def nullTypeErrorMessage : String :=
  "Null is not a permitted type in Yarn Spinner 2.0 and later"

/-- The shared middle words of both undetermined-expression-type error
messages of `check_operation`, named so theorems can state what the
messages contain. -/
def canNotBeDeterminedPhrase : String :=
  "can\x27t be determined without more context"

/-- The "could be several types" error message of `check_operation`
(`type_check_visitor.rs` lines 505-508), parameterized by the
expression text and the joined candidate type names. -/
def formatAmbiguousTypeError (contextText typeNames : String) : String :=
  "Type of expression \"" ++ contextText ++ "\" " ++ canNotBeDeterminedPhrase
    ++ " (the compiler thinks it could be " ++ typeNames ++
    "). Use a type cast on at least one of the terms (e.g. the string(), number(), bool() functions)"

/-- The "no type implements this operation" error message of
`check_operation` (`type_check_visitor.rs` lines 516-519). -/
def formatUndeterminedTypeError (contextText : String) : String :=
  "Type of expression \"" ++ contextText ++ "\" " ++ canNotBeDeterminedPhrase
    ++ ". Use a type cast on at least one of the terms (e.g. the string(), number(), bool() functions)"

/-- The arity-mismatch error message of `visit_valueFunc`
(`type_check_visitor.rs` lines 318-329), with the singular/plural
choice of the source. -/
def formatFunctionArityError (functionName : String) (expected received : Nat) : String :=
  "Function " ++ functionName ++ " expects " ++ toString expected ++ " "
    ++ (if expected == 1 then "parameter" else "parameters")
    ++ ", but received " ++ toString received

/-- The `filename` helper of `type_check_visitor.rs` lines 723-730
(`Path::file_name` with a fallback to the whole path), modelled for
Unix-style separators: the last `/`-separated component, or the path
itself when that component is empty. -/
def filename (path : String) : String :=
  match (path.splitOn "/").getLast? with
  | some last => if last == "" then path else last
  | none => path

/-- `DeferredTypeDiagnostic` (the deferred-diagnostic entries of the
visitor, spec section 4.3.6): a variable name with its tentative
diagnostic. -/
structure DeferredTypeDiagnostic where
  name : String
  diagnostic : Diagnostic
deriving Repr, DecidableEq

mutual

/-- The expression parse-tree contexts the type-check visitor handles
(`ExpressionContextAll` of the generated parser). The expression forms
whose visit methods are `todo!()` in the source (`expAddSub`,
`expMultDivMod`, `expComparison`, `expEquality`, `expNegative`,
`expNot`) are collapsed into `expOther`, whose visit panics like the
source does. -/
inductive ExpressionContext where
  | expValue (info : CtxInfo) (value : ValueContext)
  | expParens (info : CtxInfo) (expression : ExpressionContext)
  | expAndOrXor (info : CtxInfo) (expressions : List ExpressionContext) (op : Operator)
      (opText : String)
  | expOther (info : CtxInfo)

/-- The value parse-tree contexts (`ValueContextAll` of the generated
parser). -/
inductive ValueContext where
  | valueNumber (info : CtxInfo)
  | valueString (info : CtxInfo)
  | valueTrue (info : CtxInfo)
  | valueFalse (info : CtxInfo)
  | valueNull (info : CtxInfo)
  | valueVar (info : CtxInfo) (varCtx : VariableContext)
  | valueFunc (info : CtxInfo) (functionCall : FunctionCall)

/-- A `VariableContext`: its context data and its optional `VAR_ID`
token text (`None` models a parse-error context with no variable
name). -/
inductive VariableContext where
  | mk (info : CtxInfo) (varId : Option String)

/-- A `Function_callContext`: the `FUNC_ID` token text and the argument
expressions (`expression_all`). -/
inductive FunctionCall where
  | mk (funcId : String) (expressions : List ExpressionContext)

end

/-- The context data of a value context. -/
def ValueContext.info : ValueContext → CtxInfo
  | .valueNumber i => i
  | .valueString i => i
  | .valueTrue i => i
  | .valueFalse i => i
  | .valueNull i => i
  | .valueVar i _ => i
  | .valueFunc i _ => i

/-- The context data of a variable context. -/
def VariableContext.info : VariableContext → CtxInfo
  | .mk i _ => i

/-- The `VAR_ID` token text of a variable context, when present. -/
def VariableContext.varId : VariableContext → Option String
  | .mk _ v => v

/-- The `FUNC_ID` token text of a function call. -/
def FunctionCall.funcId : FunctionCall → String
  | .mk f _ => f

/-- The argument expressions of a function call (`expression_all`). -/
def FunctionCall.expressions : FunctionCall → List ExpressionContext
  | .mk _ es => es

/-- Mirror of the `Term` enum of `type_check_visitor.rs` lines 774-778:
a term handed to `check_operation` is either an expression context or a
variable context (`Term::Variable` is spelled `Term.var` here because
`variable` is a reserved word). -/
inductive Term where
  | expression (ctx : ExpressionContext)
  | var (ctx : VariableContext)

/-- Mirror of the `TypeCheckVisitor` state (`type_check_visitor.rs`
lines 28-79): accumulated diagnostics, newly derived declarations,
deferred type diagnostics, the pre-existing declarations, the current
node and file names, and the interval-keyed `types` and `hints` maps. -/
structure TypeCheckVisitor where
  diagnostics : List Diagnostic := []
  newDeclarations : List Declaration := []
  deferredTypes : List DeferredTypeDiagnostic := []
  existingDeclarations : List Declaration := []
  currentNodeName : Option String := none
  sourceFileName : String := ""
  types : List (Interval × YType) := []
  hints : List (Interval × YType) := []
deriving Repr

/-- `TypeCheckVisitor::new` (`type_check_visitor.rs` lines 82-99). -/
def TypeCheckVisitor.new (sourceFileName : String)
    (existingDeclarations : List Declaration) : TypeCheckVisitor :=
  { sourceFileName := sourceFileName, existingDeclarations := existingDeclarations }

/-- `TypeCheckVisitor::declarations` (`type_check_visitor.rs` lines
101-109): the pre-existing declarations followed by the derived ones. -/
def TypeCheckVisitor.declarations (v : TypeCheckVisitor) : List Declaration :=
  v.existingDeclarations ++ v.newDeclarations

/-- `TypeCheckVisitor::get_hint` (`type_check_visitor.rs` lines
111-114): look up the hint stored for the context's source interval. -/
def TypeCheckVisitor.getHint (v : TypeCheckVisitor) (info : CtxInfo) : Option YType :=
  hashMapGet v.hints info.interval

/-- `TypeCheckVisitor::set_hint` (`type_check_visitor.rs` lines
116-124): store a hint for the context's source interval; storing
`None` is a no-op (the source returns early through `?`). -/
def TypeCheckVisitor.setHint (v : TypeCheckVisitor) (info : CtxInfo)
    (hint : Option YType) : TypeCheckVisitor :=
  match hint with
  | none => v
  | some hint => { v with hints := hashMapInsert v.hints info.interval hint }

/-- `TypeCheckVisitor::get_type` (`type_check_visitor.rs` lines
126-129). -/
def TypeCheckVisitor.getType (v : TypeCheckVisitor) (info : CtxInfo) : Option YType :=
  hashMapGet v.types info.interval

/-- `TypeCheckVisitor::set_type` (`type_check_visitor.rs` lines
131-139): store a resolved type for the context's source interval;
storing `None` is a no-op. -/
def TypeCheckVisitor.setType (v : TypeCheckVisitor) (info : CtxInfo)
    (t : Option YType) : TypeCheckVisitor :=
  match t with
  | none => v
  | some t => { v with types := hashMapInsert v.types info.interval t }

/-- Modelled from the spec: `Declaration::eq` (core crate) compares two
declarations field by field; the source compares numeric default
values with a `1e-4` tolerance, which coincides with exact equality on
the rational values this embedding handles. Used by `find_remove`. -/
def Declaration.eqApprox (d e : Declaration) : Bool :=
  d.name == e.name && optBeq d.type e.type && d.defaultValue == e.defaultValue
    && d.description == e.description && d.sourceFileName == e.sourceFileName
    && d.sourceNodeName == e.sourceNodeName && d.range == e.range
    && d.isImplicit == e.isImplicit

/-- `DeclarationVecExt::find_remove` (`type_check_visitor.rs` lines
690-702): remove the first declaration that compares equal to the
given one, if any. -/
def findRemove (decls : List Declaration) (declaration : Declaration) : List Declaration :=
  match decls.findIdx? (fun decl => Declaration.eqApprox decl declaration) with
  | some index => decls.eraseIdx index
  | none => decls

/-- `TypeCheckVisitor::visit_variable` (`type_check_visitor.rs` lines
198-240): with no `VAR_ID` token, bail out with `None`; with a
declared name, return the declared type; with a deferred diagnostic
already recorded for the name, return `None` without adding another;
otherwise record one deferred "cannot determine type" diagnostic and
return `None`. -/
def visitVariable (v : TypeCheckVisitor) (ctx : VariableContext) :
    Option YType × TypeCheckVisitor :=
  match ctx.varId with
  | none => (none, v)
  | some name =>
    match v.declarations.find? (fun decl => decl.name == name) with
    | some declaration => (declaration.type, v)
    | none =>
      if v.deferredTypes.any (fun deferredType => deferredType.name == name) then
        (none, v)
      else
        let diagnostic :=
          ((Diagnostic.fromMessage
            (formatCannotDetermineVariableTypeError name)).withFileName
            v.sourceFileName).readParserRuleContext ctx.info
        (none, { v with deferredTypes := v.deferredTypes ++ [⟨name, diagnostic⟩] })

/-- The outcome of the type-determination prefix of `check_operation`
(`type_check_visitor.rs` lines 468-527): either the control flow falls
through with a (possibly still unknown) expression type, or the
function returns `None` early after emitting a diagnostic. -/
inductive ResolveOutcome where
  | resolved (expressionType : Option YType) (v : TypeCheckVisitor)
  | returnedNone (v : TypeCheckVisitor)
deriving Repr

/-- Steps 2-3 of `check_operation` (`type_check_visitor.rs` lines
468-527): adopt the single permitted type when the terms yielded no
concrete type; otherwise consult the operator method table over
`Type::EXPLICITLY_CONSTRUCTABLE` and either adopt the unique
implementing type or return `None` with a "can't be determined without
more context" diagnostic. -/
def resolveExpressionType (v : TypeCheckVisitor) (context : CtxInfo)
    (expressionType0 : Option YType) (operationType : Option Operator)
    (permittedTypes : List YType) : ResolveOutcome :=
  let expressionType :=
    if permittedTypes.length == 1 && expressionType0.isNone then
      permittedTypes.head?
    else expressionType0
  if expressionType.isNone then
    match operationType with
    | some operationType =>
      let typesImplementingMethod :=
        explicitlyConstructable.filter (fun t => typeHasMethod t operationType)
      if typesImplementingMethod.length == 1 then
        .resolved typesImplementingMethod.head? v
      else if typesImplementingMethod.length > 1 then
        let typeNames := String.intercalate ", or " (typesImplementingMethod.map typeName)
        let diagnostic :=
          ((Diagnostic.fromMessage
            (formatAmbiguousTypeError context.textWithWhitespace typeNames)).withFileName
            v.sourceFileName).readParserRuleContext context
        .returnedNone { v with diagnostics := v.diagnostics ++ [diagnostic] }
      else
        let diagnostic :=
          ((Diagnostic.fromMessage
            (formatUndeterminedTypeError context.textWithWhitespace)).withFileName
            v.sourceFileName).readParserRuleContext context
        .returnedNone { v with diagnostics := v.diagnostics ++ [diagnostic] }
    | none => .resolved expressionType v
  else
    .resolved expressionType v

/-- The pattern guard of the return-type-binding loop of
`check_operation` (`type_check_visitor.rs` lines 535-546): a term is
considered a function call when it is an expression context of the
`ExpValue` form whose value is a `ValueFunc`; its `FUNC_ID` is
extracted. -/
def termAsFunctionCallId : Term → Option String
  | .expression (.expValue _ (.valueFunc _ functionCall)) => some functionCall.funcId
  | _ => none

/-- The `iter_mut().filter(..).find_map(..)` scan plus in-place update
of `check_operation` lines 548-563: find the first new declaration
with the given name whose type is a `Function`; when its return type
is already bound leave the list unchanged, otherwise bind its return
type to the expression type. Yields `none` when no such declaration
exists (the loop then falls back to visiting the term). -/
def bindReturnTypeInDeclarations (decls : List Declaration) (id : String)
    (expressionType : Option YType) : Option (List Declaration) :=
  match decls with
  | [] => none
  | decl :: rest =>
    match decl.name == id, decl.type with
    | true, some (.function parameters returnType) =>
      if returnType.isSome then some (decl :: rest)
      else some ({ decl with type := some (.function parameters expressionType) } :: rest)
    | _, _ => (bindReturnTypeInDeclarations rest id expressionType).map (decl :: ·)

/-- `child_of_type_unsized::<ValueContextAll>(0)` on a term (the
`ParserRuleContextExt` helper, not under `src/`, modelled as: the
first direct parse-tree child of the given type). Only an `ExpValue`
expression context has a value context as a direct child. -/
def childValueContext : Term → Option ValueContext
  | .expression (.expValue _ value) => some value
  | _ => none

/-- `child_of_type_unsized::<VariableContext>(0)` on a term, modelled
as the first direct child of type `VariableContext`: no expression or
variable context has one as a direct child (a variable context sits
below a `ValueVar` value context), so this is always `none`; it is
kept as its own definition to mirror the second chain of
`check_operation` lines 593-597. -/
def childVariableContext : Term → Option VariableContext
  | .expression _ => none
  | .var _ => none

/-- The `downcast_rc::<VariableContext>` chain of `check_operation`
lines 598-601: the term itself, when it is a variable context. -/
def termAsVariableContext : Term → Option VariableContext
  | .var ctx => some ctx
  | .expression _ => none

/-- The `downcast_rc::<ValueContextAll>` chain of `check_operation`
lines 603-614: a `Term` wraps either an expression context or a
variable context, never a bare value context, so the downcast always
fails; kept as its own definition to mirror the fourth chain. -/
def termAsValueContext : Term → Option ValueContext
  | .expression _ => none
  | .var _ => none

/-- The variable-context collection of `check_operation` lines 581-614:
the four chained iterators (values of `ValueVar` children, the first
direct `VariableContext` child over all terms, terms that are
variable contexts, and terms that are `ValueVar` value contexts). -/
def collectVariableContexts (terms : List Term) : List VariableContext :=
  (terms.filterMap (fun term =>
    (childValueContext term).bind (fun value =>
      match value with
      | .valueVar _ varCtx => some varCtx
      | _ => none)))
  ++ (match terms.findSome? childVariableContext with
      | some varCtx => [varCtx]
      | none => [])
  ++ terms.filterMap termAsVariableContext
  ++ (terms.filterMap (fun term =>
      (termAsValueContext term).bind (fun value =>
        match value with
        | .valueVar _ varCtx => some varCtx
        | _ => none)))

/-- The undefined-variable filter of `check_operation` lines 618-625:
keep the contexts whose `VAR_ID` names no known declaration. The
source unwraps each context's `VAR_ID`, so a missing token is a
panic. -/
def filterUndefinedVariables (v : TypeCheckVisitor) :
    List VariableContext → Except String (List VariableContext)
  | [] => .ok []
  | ctx :: rest =>
    match ctx.varId with
    | none => .error "called Option::unwrap() on a None value"
    | some name =>
      match filterUndefinedVariables v rest with
      | .error e => .error e
      | .ok filtered =>
        if !(v.declarations.any (fun d => d.name == name)) then .ok (ctx :: filtered)
        else .ok filtered

/-- Stable insertion of a context into a list already sorted by
interval: the new element goes after every element that is
less-or-equal to it, preserving the relative order of equal keys. -/
def insertByInterval (x : VariableContext) : List VariableContext → List VariableContext
  | [] => [x]
  | y :: rest =>
    if Interval.le y.info.interval x.info.interval then y :: insertByInterval x rest
    else x :: y :: rest

/-- `Vec::sort_by_key` on the source interval (`check_operation` line
627) modelled as a stable insertion sort: same ordering contract
(stable, keyed by the interval) as the source's stable sort. -/
def sortByInterval : List VariableContext → List VariableContext
  | [] => []
  | x :: rest => insertByInterval x (sortByInterval rest)

/-- The tail of `Vec::dedup_by_key` (`check_operation` line 628): drop
every element whose interval equals that of the last retained element
(`prev`), keeping the first of each run. -/
def dedupByIntervalTail (prev : VariableContext) :
    List VariableContext → List VariableContext
  | [] => []
  | y :: rest =>
    if y.info.interval == prev.info.interval then dedupByIntervalTail prev rest
    else y :: dedupByIntervalTail y rest

/-- `Vec::dedup_by_key` on the source interval (`check_operation` line
628): collapse runs of consecutive contexts with equal intervals,
keeping the first of each run. -/
def dedupByInterval : List VariableContext → List VariableContext
  | [] => []
  | x :: rest => x :: dedupByIntervalTail x rest

/-- `default_value_for_type` (`type_check_visitor.rs` lines 709-716):
the default value of a base type; unknown and function types have
none. -/
def defaultValueForType : Option YType → Option Convertible
  | some .string => some (.string "")
  | some .number => some (.number 0)
  | some .boolean => some (.boolean false)
  | _ => none

/-- The implicit-declaration loop of `check_operation` lines 630-680:
for every undefined variable context, either synthesize an implicit
declaration typed with the expression type (when that type has a
default value) or emit a "cannot determine variable type" error
diagnostic. -/
def declareUndefinedVariablesLoop (v : TypeCheckVisitor) (expressionType : Option YType) :
    List VariableContext → Except String TypeCheckVisitor
  | [] => .ok v
  | ctx :: rest =>
    match ctx.varId with
    | none => .error "called Option::unwrap() on a None value"
    | some varName =>
      match defaultValueForType expressionType with
      | some defaultValue =>
        let fileName := filename v.sourceFileName
        let node :=
          match v.currentNodeName with
          | some name => ", node " ++ name
          | none => ""
        let decl :=
          (((((((Declaration.default.withName varName).withDescription
            ("Implicitly declared in " ++ fileName ++ node)).withType
            expressionType).withDefaultValue defaultValue).withSourceFileName
            v.sourceFileName).withSourceNodeNameOptional v.currentNodeName).withRange
            (⟨ctx.info.startLine - 1, ctx.info.startColumn⟩,
             ⟨ctx.info.stopLine - 1, ctx.info.stopColumn + ctx.info.text.length⟩)).withImplicit
        declareUndefinedVariablesLoop
          { v with newDeclarations := v.newDeclarations ++ [decl] } expressionType rest
      | none =>
        let diagnostic :=
          ((Diagnostic.fromMessage
            (formatCannotDetermineVariableTypeError varName)).withFileName
            v.sourceFileName).readParserRuleContext ctx.info
        declareUndefinedVariablesLoop
          { v with diagnostics := v.diagnostics ++ [diagnostic] } expressionType rest

/-- The implicit function declaration `visit_valueFunc` synthesizes for
an undeclared function (`type_check_visitor.rs` lines 276-299). Its
type snapshots `Type::from(function_type.clone())` at a point where the
local function type holds only the hint as return type and no
parameters yet: the source adds the parameter placeholders to the local
`function_type` only after this clone, so the declaration's parameter
list is always empty. -/
def implicitFunctionDeclaration (sourceFileName : String) (info : CtxInfo)
    (functionName : String) (hint : Option YType) : Declaration :=
  ((((Declaration.default.withType
    (some (FunctionType.default.setReturnType hint).toYType)).withName
    functionName).withDescription
    ("Implicit declaration of function at " ++ sourceFileName ++ ":"
      ++ toString info.startLine ++ ":" ++ toString info.startColumn)).withRange
    (⟨info.startLine, info.startColumn + 1⟩,
     ⟨info.startLine, info.startColumn + 1 + info.stopTokenText.length⟩)).withImplicit

/-- Modelled from the spec (section 7): a compilation fails — returns
the error variant — iff at least one accumulated diagnostic has
severity `Error`. -/
def compilationFails (diagnostics : List Diagnostic) : Bool :=
  diagnostics.any (fun d =>
    match d.severity with
    | .error => true
    | .warning => false)

mutual

/-- The expression dispatch of the visitor
(`visit_expValue`, `visit_expParens`, `visit_expAndOrXor`,
`type_check_visitor.rs` lines 368-394, plus the expression visit
methods that are `todo!()` in the source). The `Nat` argument is
recursion fuel, an embedding artifact: every Rust call consumes one
unit, and running out is an `Except.error` no theorem relies on. -/
def visitExpression : Nat → TypeCheckVisitor → ExpressionContext →
    Except String (Option YType × TypeCheckVisitor)
  | 0, _, _ => .error "out of fuel"
  | fuel + 1, v, .expValue info value =>
    let hint := v.getHint info
    let v := v.setHint value.info hint
    match visitValue fuel v value with
    | .error e => .error e
    | .ok (t, v) => .ok (t, v.setType info t)
  | fuel + 1, v, .expParens info expression =>
    match visitExpression fuel v expression with
    | .error e => .error e
    | .ok (t, v) => .ok (t, v.setType info t)
  | fuel + 1, v, .expAndOrXor info expressions op opText =>
    let terms := expressions.map Term.expression
    match checkOperation fuel v info terms (some op) opText [] with
    | .error e => .error e
    | .ok (t, v) => .ok (t, v.setType info t)
  | _ + 1, _, .expOther _ => .error "not yet implemented"
termination_by structural fuel => fuel

/-- The value dispatch of the visitor (`visit_valueNull` through
`visit_valueFunc`, `type_check_visitor.rs` lines 167-196 and 242):
literals yield their types, a null literal pushes the null-type error
diagnostic and yields `None`, a variable value delegates to
`visit_variable`, and a function value delegates to
`visit_valueFunc`. -/
def visitValue : Nat → TypeCheckVisitor → ValueContext →
    Except String (Option YType × TypeCheckVisitor)
  | 0, _, _ => .error "out of fuel"
  | _ + 1, v, .valueNull info =>
    let diagnostic :=
      ((Diagnostic.fromMessage nullTypeErrorMessage).withFileName
        v.sourceFileName).readParserRuleContext info
    .ok (none, { v with diagnostics := v.diagnostics ++ [diagnostic] })
  | _ + 1, v, .valueString _ => .ok (some .string, v)
  | _ + 1, v, .valueTrue _ => .ok (some .boolean, v)
  | _ + 1, v, .valueFalse _ => .ok (some .boolean, v)
  | _ + 1, v, .valueNumber _ => .ok (some .number, v)
  | _ + 1, v, .valueVar _ varCtx => .ok (visitVariable v varCtx)
  | fuel + 1, v, .valueFunc info functionCall => visitValueFunc fuel v info functionCall
termination_by structural fuel => fuel

/-- `TypeCheckVisitor::visit_valueFunc` (`type_check_visitor.rs` lines
242-366) up to the parameter checks: find the function declaration;
when it exists with an unbound return type and a hint is available,
replace it in the derived declarations with a copy whose return type
is the hint; when it does not exist, synthesize an implicit
declaration (its type snapshots the local function type before the
parameter placeholders are added to it, as the source clones at that
point) and push it. The resulting local function type is handed to the
parameter checks. -/
def visitValueFunc : Nat → TypeCheckVisitor → CtxInfo → FunctionCall →
    Except String (Option YType × TypeCheckVisitor)
  | 0, _, _, _ => .error "out of fuel"
  | fuel + 1, v, info, functionCall =>
    let functionName := functionCall.funcId
    let functionDeclaration := v.declarations.find? (fun decl => decl.name == functionName)
    let hint := v.getHint info
    match functionDeclaration with
    | some functionDeclaration =>
      match functionDeclaration.type with
      | some (.function parameters returnType) =>
        let functionType : FunctionType := ⟨parameters, returnType⟩
        let (functionType, v) :=
          if functionType.returnType.isNone then
            match hint with
            | some hintType =>
              let v := { v with
                newDeclarations := findRemove v.newDeclarations functionDeclaration }
              let functionType := functionType.setReturnType (some hintType)
              let newDeclaration :=
                { functionDeclaration with type := some functionType.toYType }
              (functionType,
                { v with newDeclarations := v.newDeclarations ++ [newDeclaration] })
            | none => (functionType, v)
          else (functionType, v)
        checkFunctionCallParameters fuel v info functionName functionCall functionType
      | _ =>
        .error "Internal error: function declaration is not of type Function. This is a bug."
    | none =>
      let functionType := FunctionType.default.setReturnType hint
      let functionDeclaration :=
        implicitFunctionDeclaration v.sourceFileName info functionName hint
      let functionType :=
        functionCall.expressions.foldl (fun ft _ => ft.addParameter none) functionType
      let v := { v with newDeclarations := v.newDeclarations ++ [functionDeclaration] }
      checkFunctionCallParameters fuel v info functionName functionCall functionType
termination_by structural fuel => fuel

/-- The parameter-checking tail of `visit_valueFunc`
(`type_check_visitor.rs` lines 312-365): on an arity mismatch, push
one arity diagnostic and bail out with the function type's return
type, without visiting any argument; otherwise check every argument
against its expected type and return the return type. -/
def checkFunctionCallParameters : Nat → TypeCheckVisitor → CtxInfo → String →
    FunctionCall → FunctionType → Except String (Option YType × TypeCheckVisitor)
  | 0, _, _, _, _, _ => .error "out of fuel"
  | fuel + 1, v, info, functionName, functionCall, functionType =>
    let suppliedParameters := functionCall.expressions
    let expectedParameterTypes := functionType.parameters
    if suppliedParameters.length ≠ expectedParameterTypes.length then
      let diagnostic :=
        ((Diagnostic.fromMessage
          (formatFunctionArityError functionName expectedParameterTypes.length
            suppliedParameters.length)).withFileName
          v.sourceFileName).readParserRuleContext info
      .ok (functionType.returnType, { v with diagnostics := v.diagnostics ++ [diagnostic] })
    else
      match checkParametersLoop fuel v info functionName
        (suppliedParameters.zip expectedParameterTypes) 0 with
      | .error e => .error e
      | .ok v => .ok (functionType.returnType, v)
termination_by structural fuel => fuel

/-- The argument loop of `visit_valueFunc` (`type_check_visitor.rs`
lines 336-361): visit each supplied argument, bind a not-yet-bound
expected type to the argument's resolved type, and push a
parameter-mismatch diagnostic when the subtype check fails. -/
def checkParametersLoop : Nat → TypeCheckVisitor → CtxInfo → String →
    List (ExpressionContext × Option YType) → Nat → Except String TypeCheckVisitor
  | 0, _, _, _, _, _ => .error "out of fuel"
  | _ + 1, v, _, _, [], _ => .ok v
  | fuel + 1, v, info, functionName, (suppliedParameter, expectedType) :: rest, i =>
    match visitExpression fuel v suppliedParameter with
    | .error e => .error e
    | .ok (suppliedType, v) =>
      let expectedType := if expectedType.isNone then suppliedType else expectedType
      let v :=
        if !(isSubTypeOf expectedType suppliedType) then
          let diagnostic :=
            ((Diagnostic.fromMessage
              (functionName ++ " parameter " ++ toString (i + 1) ++ " expects a "
                ++ typeFormat expectedType ++ ", not a "
                ++ typeFormat suppliedType)).withFileName
              v.sourceFileName).readParserRuleContext info
          { v with diagnostics := v.diagnostics ++ [diagnostic] }
        else v
      checkParametersLoop fuel v info functionName rest (i + 1)
termination_by structural fuel => fuel

/-- The generic `self.visit(..)` dispatch on a term: an expression
context is visited through the expression dispatch, a variable context
through `visit_variable`. -/
def visitTerm : Nat → TypeCheckVisitor → Term →
    Except String (Option YType × TypeCheckVisitor)
  | 0, _, _ => .error "out of fuel"
  | fuel + 1, v, .expression ctx => visitExpression fuel v ctx
  | _ + 1, v, .var ctx => .ok (visitVariable v ctx)
termination_by structural fuel => fuel

/-- Step 1 of `check_operation` (`type_check_visitor.rs` lines
454-467): visit every term in order, collect the concrete term types,
and remember the first concrete type as the expression type. -/
def collectTermTypes : Nat → TypeCheckVisitor → List Term → List YType →
    Option YType → Except String ((List YType × Option YType) × TypeCheckVisitor)
  | 0, _, _, _, _ => .error "out of fuel"
  | _ + 1, v, [], termTypes, expressionType => .ok ((termTypes, expressionType), v)
  | fuel + 1, v, term :: rest, termTypes, expressionType =>
    match visitTerm fuel v term with
    | .error e => .error e
    | .ok (t, v) =>
      match t with
      | some t =>
        collectTermTypes fuel v rest (termTypes ++ [t])
          (if expressionType.isNone then some t else expressionType)
      | none => collectTermTypes fuel v rest termTypes expressionType
termination_by structural fuel => fuel

/-- The return-type-binding loop of `check_operation`
(`type_check_visitor.rs` lines 535-567): for every term that is a
function call, bind the unbound return type of its derived declaration
to the expression type; when no such derived declaration exists, visit
the term instead. -/
def bindFunctionTerms : Nat → TypeCheckVisitor → List Term → Option YType →
    Except String TypeCheckVisitor
  | 0, _, _, _ => .error "out of fuel"
  | _ + 1, v, [], _ => .ok v
  | fuel + 1, v, term :: rest, expressionType =>
    match termAsFunctionCallId term with
    | none => bindFunctionTerms fuel v rest expressionType
    | some id =>
      match bindReturnTypeInDeclarations v.newDeclarations id expressionType with
      | some newDecls =>
        bindFunctionTerms fuel { v with newDeclarations := newDecls } rest expressionType
      | none =>
        match visitTerm fuel v term with
        | .error e => .error e
        | .ok (_, v) => bindFunctionTerms fuel v rest expressionType
termination_by structural fuel => fuel

/-- `TypeCheckVisitor::check_operation` (`type_check_visitor.rs` lines
445-682): collect the term types, determine the expression type (the
early-return diagnostic branches yield `None`), bind unbound function
return types, synthesize implicit declarations for undefined variable
terms — and then hit the `todo!()` the source function ends with,
embedded as an `Except.error`. -/
def checkOperation : Nat → TypeCheckVisitor → CtxInfo → List Term → Option Operator →
    String → List YType → Except String (Option YType × TypeCheckVisitor)
  | 0, _, _, _, _, _, _ => .error "out of fuel"
  | fuel + 1, v, context, terms, operationType, _operationDescription, permittedTypes =>
    match collectTermTypes fuel v terms [] none with
    | .error e => .error e
    | .ok ((_termTypes, expressionType), v) =>
      match resolveExpressionType v context expressionType operationType permittedTypes with
      | .returnedNone v => .ok (none, v)
      | .resolved expressionType v =>
        match bindFunctionTerms fuel v terms expressionType with
        | .error e => .error e
        | .ok v =>
          let variableContexts := collectVariableContexts terms
          match filterUndefinedVariables v variableContexts with
          | .error e => .error e
          | .ok undefinedVariableContexts =>
            let sorted := sortByInterval undefinedVariableContexts
            match declareUndefinedVariablesLoop v expressionType (dedupByInterval sorted) with
            | .error e => .error e
            | .ok _ => .error "not yet implemented: check_operation ends in a todo panic"
termination_by structural fuel => fuel

end

/-! Shared lemmas about the embedded data structures. -/

/-- Replacing the binding of a key present in an association-list map
makes the first binding of that key carry the new value. -/
theorem find?_map_replace {α : Type} [BEq κ] [LawfulBEq κ]
    (map : List (κ × α)) (k : κ) (v : α) (h : map.any (fun kv => kv.fst == k) = true) :
    ((map.map (fun kv => if kv.fst == k then (k, v) else kv)).find?
      (fun kv => kv.fst == k)) = some (k, v) := by
  induction map with
  | nil => simp at h
  | cons kv rest ih =>
    by_cases hkv : kv.fst == k
    · simp [List.find?, hkv]
    · simp only [List.any_cons, hkv, Bool.false_or] at h
      simp [List.find?, hkv, ih h]

/-- Appending a binding for an absent key makes it the first binding
found for that key. -/
theorem find?_append_self {α : Type} [BEq κ] [LawfulBEq κ]
    (map : List (κ × α)) (k : κ) (v : α) (h : map.any (fun kv => kv.fst == k) = false) :
    ((map ++ [(k, v)]).find? (fun kv => kv.fst == k)) = some (k, v) := by
  induction map with
  | nil => simp [List.find?]
  | cons kv rest ih =>
    simp only [List.any_cons, Bool.or_eq_false_iff] at h
    simp [List.find?, h.1, ih h.2]

/-- A `hashMapInsert` followed by a `hashMapGet` of the same key yields
the inserted value, in both the replace and the append case. -/
theorem hashMapGet_insert {α : Type} [BEq κ] [LawfulBEq κ]
    (map : List (κ × α)) (k : κ) (v : α) :
    hashMapGet (hashMapInsert map k v) k = some v := by
  unfold hashMapInsert hashMapGet
  by_cases h : map.any (fun kv => kv.fst == k)
  · simp only [h, if_true]
    rw [find?_map_replace map k v h]
    rfl
  · have h2 : map.any (fun kv => kv.fst == k) = false := by
      rwa [Bool.not_eq_true] at h
    rw [h2]
    simp only [Bool.false_eq_true, if_false]
    rw [find?_append_self map k v h2]
    rfl

/-- The cannot-determine-variable-type message begins with its leading
phrase, for every variable name. -/
theorem prefix_of_cannotDetermine (name : String) :
    cannotDetermineVariableTypePhrase.data <+:
      (formatCannotDetermineVariableTypeError name).data := by
  unfold formatCannotDetermineVariableTypeError
  simp [String.data_append]

/-- The several-candidate-types message contains the
cannot-be-determined phrase, for every expression text. -/
theorem infix_of_ambiguous (contextText typeNames : String) :
    canNotBeDeterminedPhrase.data <:+:
      (formatAmbiguousTypeError contextText typeNames).data := by
  unfold formatAmbiguousTypeError
  refine ⟨("Type of expression \"" ++ contextText ++ "\" ").data,
    (" (the compiler thinks it could be " ++ typeNames ++
      "). Use a type cast on at least one of the terms (e.g. the string(), number(), bool() functions)").data,
    ?_⟩
  simp [String.data_append]

/-- The no-candidate-type message contains the cannot-be-determined
phrase, for every expression text. -/
theorem infix_of_undetermined (contextText : String) :
    canNotBeDeterminedPhrase.data <:+:
      (formatUndeterminedTypeError contextText).data := by
  unfold formatUndeterminedTypeError
  refine ⟨("Type of expression \"" ++ contextText ++ "\" ").data,
    (". Use a type cast on at least one of the terms (e.g. the string(), number(), bool() functions)").data,
    ?_⟩
  simp [String.data_append]

/-- Distinct nodes get distinct tracking-variable names. -/
theorem generateUnique_inj (a b : String)
    (h : generateUniqueVisitedVariableForNode a = generateUniqueVisitedVariableForNode b) :
    a = b := by
  unfold generateUniqueVisitedVariableForNode at h
  have h2 := congrArg String.data h
  simp [String.data_append] at h2
  exact String.ext h2

/-- When every compilation in the list has a program, the accumulation
loop of `Compilation::combine` succeeds, whatever the accumulators. -/
theorem combineLoop_ok_of_all_some (comps : List Compilation)
    (h : ∀ c ∈ comps, c.program.isSome) :
    ∀ ps ds ts gs ns, ∃ r, Compilation.combineLoop comps ps ds ts gs ns = .ok r := by
  induction comps with
  | nil => intro ps ds ts gs ns; exact ⟨_, rfl⟩
  | cons c rest ih =>
    intro ps ds ts gs ns
    obtain ⟨p, hp⟩ := Option.isSome_iff_exists.mp (h c (by simp))
    have := ih (fun x hx => h x (by simp [hx]))
    simpa [Compilation.combineLoop, hp] using this _ _ _ _ _

/-- When some compilation in the list has no program, the accumulation
loop of `Compilation::combine` hits the `unwrap` panic, whatever the
accumulators. -/
theorem combineLoop_error_of_none (comps : List Compilation)
    (h : ∃ c ∈ comps, c.program = none) :
    ∀ ps ds ts gs ns, Compilation.combineLoop comps ps ds ts gs ns
      = .error "called Option::unwrap() on a None value" := by
  induction comps with
  | nil => simp at h
  | cons c rest ih =>
    intro ps ds ts gs ns
    match hp : c.program with
    | none => simp [Compilation.combineLoop, hp]
    | some p =>
      obtain ⟨x, hx, hxn⟩ := h
      rcases List.mem_cons.mp hx with hxc | hxr
      · subst hxc
        rw [hp] at hxn
        exact absurd hxn (by simp)
      · simp [Compilation.combineLoop, hp, ih ⟨x, hxr, hxn⟩]

/-! Concrete sample inputs used by the claim theorems and witnesses. -/

/-- A sample parse-tree context datum with the given source interval. -/
def sampleCtxInfo (n : Int) : CtxInfo :=
  { interval := ⟨n, n⟩
    startLine := 1
    startColumn := 5
    stopLine := 1
    stopColumn := 9
    text := "t"
    textWithWhitespace := "tw"
    stopTokenText := ")" }

/-- A fresh visitor over `test.yarn` with no pre-existing
declarations. -/
def sampleVisitor : TypeCheckVisitor := TypeCheckVisitor.new "test.yarn" []

/-- The parse tree of the conjunction `true && false`: a reachable
`check_operation` invocation whose first term already has a concrete
type. -/
def conjunctionExpression : ExpressionContext :=
  .expAndOrXor (sampleCtxInfo 0)
    [.expValue (sampleCtxInfo 1) (.valueTrue (sampleCtxInfo 2)),
     .expValue (sampleCtxInfo 3) (.valueFalse (sampleCtxInfo 4))] .and "&&"

/-- The parse tree of the one-argument call `f(1)` with `f`
undeclared. -/
def oneArgumentCall : ValueContext :=
  .valueFunc (sampleCtxInfo 10)
    (.mk "f" [.expValue (sampleCtxInfo 11) (.valueNumber (sampleCtxInfo 12))])

/-- The declaration the implicit branch of `visit_valueFunc` pushes for
`f(1)` in `sampleVisitor`: its function type carries no parameters. -/
def oneArgumentCallDeclaration : Declaration :=
  { name := "f"
    type := some (.function [] none)
    description := "Implicit declaration of function at test.yarn:1:5"
    range := some (⟨1, 6⟩, ⟨1, 7⟩)
    isImplicit := true }

/-- A declaration of `foo` as a two-`Number`-parameter function
returning `Boolean`, for the arity-mismatch scenario. -/
def arityDeclaration : Declaration :=
  Declaration.new "foo" (.function [some .number, some .number] (some .boolean))

/-- A visitor that already knows `arityDeclaration`. -/
def arityVisitor : TypeCheckVisitor := TypeCheckVisitor.new "test.yarn" [arityDeclaration]

/-! Claim theorems. -/

/-- Claim C1: the claim states that `check_operation` returns `Some(E)`
on success after binding return types and synthesizing implicit
declarations. The code does not: `check_operation` never produces
`.ok (some _, _)` — every run either returns `None` early or panics —
and the reachable successful determination `true && false` (expression
type `Boolean`) runs all the binding steps and then hits the source's
final `todo!()` panic instead of returning `Some(Boolean)`. -/
theorem c1_check_operation_success_panics :
    (∀ (fuel : Nat) (v : TypeCheckVisitor) (context : CtxInfo) (terms : List Term)
      (op : Option Operator) (description : String) (permitted : List YType),
      (∃ e, checkOperation fuel v context terms op description permitted = .error e)
      ∨ (∃ v2, checkOperation fuel v context terms op description permitted
          = .ok (none, v2)))
    ∧ visitExpression 20 sampleVisitor conjunctionExpression
        = .error "not yet implemented: check_operation ends in a todo panic" := by
  constructor
  · intro fuel v context terms op description permitted
    cases fuel with
    | zero => exact .inl ⟨_, rfl⟩
    | succ fuel =>
      simp only [checkOperation]
      rcases hcol : collectTermTypes fuel v terms [] none with e | ⟨⟨tts, et⟩, v1⟩
      · exact .inl ⟨_, rfl⟩
      · dsimp only
        rcases hres : resolveExpressionType v1 context et op permitted with ⟨et2, v2⟩ | ⟨v2⟩
        · dsimp only
          rcases hbind : bindFunctionTerms fuel v2 terms et2 with e | v3
          · exact .inl ⟨_, rfl⟩
          · dsimp only
            rcases hfil : filterUndefinedVariables v3 (collectVariableContexts terms)
              with e | u
            · exact .inl ⟨_, rfl⟩
            · dsimp only
              rcases hdecl : declareUndefinedVariablesLoop v3 et2
                  (dedupByInterval (sortByInterval u)) with e | v4
              · exact .inl ⟨_, rfl⟩
              · exact .inl ⟨_, rfl⟩
        · exact .inr ⟨_, rfl⟩
  · rfl

/-- Claim C2: the claim states that the implicit function declaration
synthesized for an undeclared call `f(args…)` carries a parameter list
of the observed arity (one `None` per argument). The code does not:
the declaration's type is cloned before the parameter placeholders are
added to the local function type, so the pushed declaration always has
an empty parameter list — also for the one-argument call `f(1)`, whose
pushed declaration records `Function { parameters: [], return_type:
None }` instead of one `None` parameter. Return-type-from-hint and the
implicit flag do match the claim. -/
theorem c2_implicit_function_declaration_empty_parameters :
    (∀ (sourceFileName : String) (info : CtxInfo) (functionName : String)
      (hint : Option YType),
      (implicitFunctionDeclaration sourceFileName info functionName hint).type
        = some (.function [] hint)
      ∧ (implicitFunctionDeclaration sourceFileName info functionName hint).isImplicit
        = true)
    ∧ visitValue 20 sampleVisitor oneArgumentCall
        = .ok (none,
          { sampleVisitor with
            newDeclarations := [oneArgumentCallDeclaration]
            types := [(Interval.mk 11 11, YType.number)] }) := by
  exact ⟨fun sourceFileName info functionName hint => ⟨rfl, rfl⟩, rfl⟩

/-- Claim C3: an insertion into the string table without an explicit
line id generates the id `line:<file-without-ext>-<node>-<ordinal>`,
where the file name (extension-stripped by the caller, which is
modelled from the spec) and node name come from the `StringInfo` and
the ordinal is the size of the string table at the moment of
insertion. -/
theorem c3_implicit_line_id_format (m : StringTableManager) (si : StringInfo)
    (fullName : String) (h : si.fileName = stripExtension fullName) :
    (m.insert none si).fst =
      "line:" ++ stripExtension fullName ++ "-" ++ si.nodeName ++ "-"
        ++ toString m.table.length := by
  simp [StringTableManager.insert, h]

/-- Witness for C3: inserting a line of node `Start` of `test.yarn`
into an empty string table generates `line:test-Start-0`. -/
theorem c3_implicit_line_id_format_witness :
    (StringTableManager.insert ⟨[]⟩ none
        { text := "Hello", nodeName := "Start", fileName := "test" }).fst
      = "line:" ++ stripExtension "test.yarn" ++ "-" ++ "Start" ++ "-"
        ++ toString (0 : Nat)
    ∧ "line:" ++ stripExtension "test.yarn" ++ "-" ++ "Start" ++ "-"
        ++ toString (0 : Nat) = "line:test-Start-0" :=
  ⟨c3_implicit_line_id_format ⟨[]⟩
    { text := "Hello", nodeName := "Start", fileName := "test" } "test.yarn" rfl, rfl⟩

/-- Claim C4: `StringTableManager::insert` stores under the explicit id
with `is_implicit_tag = false` when one is supplied, under the
generated id with `is_implicit_tag = true` when none is, returns the
key used for insertion in both cases, and ignores the caller-supplied
`is_implicit_tag` value. -/
theorem c4_string_table_insert_contract (m : StringTableManager) (si : StringInfo)
    (lid : String) :
    ((m.insert (some lid) si).fst = lid
      ∧ hashMapGet ((m.insert (some lid) si).snd).table lid
          = some { si with isImplicitTag := false })
    ∧ ((m.insert none si).fst
          = "line:" ++ si.fileName ++ "-" ++ si.nodeName ++ "-" ++ toString m.table.length
      ∧ hashMapGet ((m.insert none si).snd).table ((m.insert none si).fst)
          = some { si with isImplicitTag := true })
    ∧ (∀ b1 b2 : Bool,
        m.insert (some lid) { si with isImplicitTag := b1 }
          = m.insert (some lid) { si with isImplicitTag := b2 }
        ∧ m.insert none { si with isImplicitTag := b1 }
          = m.insert none { si with isImplicitTag := b2 }) := by
  refine ⟨⟨rfl, ?_⟩, ⟨rfl, ?_⟩, ?_⟩
  · exact hashMapGet_insert m.table lid { si with isImplicitTag := false }
  · exact hashMapGet_insert m.table _ { si with isImplicitTag := true }
  · intro b1 b2
    exact ⟨rfl, rfl⟩

/-- Claim C5: `visit_variable` returns the declared type when the
variable has a declaration; returns `None` without a new entry when a
deferred diagnostic for the name already exists; and otherwise appends
exactly one deferred diagnostic — whose message begins with the words
of `cannotDetermineVariableTypePhrase` — and returns `None`. -/
theorem c5_visit_variable_contract (v : TypeCheckVisitor) (ctx : VariableContext)
    (name : String) (hname : ctx.varId = some name) :
    (∀ d, v.declarations.find? (fun decl => decl.name == name) = some d →
      visitVariable v ctx = (d.type, v))
    ∧ (v.declarations.find? (fun decl => decl.name == name) = none →
        (v.deferredTypes.any (fun dt => dt.name == name)) = true →
        visitVariable v ctx = (none, v))
    ∧ (v.declarations.find? (fun decl => decl.name == name) = none →
        (v.deferredTypes.any (fun dt => dt.name == name)) = false →
        visitVariable v ctx = (none, { v with deferredTypes := v.deferredTypes
          ++ [⟨name, ((Diagnostic.fromMessage
              (formatCannotDetermineVariableTypeError name)).withFileName
              v.sourceFileName).readParserRuleContext ctx.info⟩] })
        ∧ cannotDetermineVariableTypePhrase.data <+:
            (formatCannotDetermineVariableTypeError name).data) := by
  refine ⟨?_, ?_, ?_⟩
  · intro d hfind
    simp [visitVariable, hname, hfind]
  · intro hfind hdef
    simp [visitVariable, hname, hfind, hdef]
  · intro hfind hdef
    refine ⟨?_, prefix_of_cannotDetermine name⟩
    simp [visitVariable, hname, hfind, hdef]

/-- Witness for C5: visiting the undeclared `$x` in a fresh visitor
records exactly one deferred cannot-determine-type diagnostic and
yields `None`. -/
theorem c5_visit_variable_contract_witness :
    visitVariable sampleVisitor (.mk (sampleCtxInfo 0) (some "$x"))
      = (none, { sampleVisitor with
          deferredTypes := [⟨"$x", ((Diagnostic.fromMessage
            (formatCannotDetermineVariableTypeError "$x")).withFileName
            "test.yarn").readParserRuleContext (sampleCtxInfo 0)⟩] })
    ∧ cannotDetermineVariableTypePhrase.data <+:
        (formatCannotDetermineVariableTypeError "$x").data :=
  (c5_visit_variable_contract sampleVisitor (.mk (sampleCtxInfo 0) (some "$x")) "$x"
    rfl).2.2 rfl rfl

/-- Claim C6: a function call whose argument count differs from the
declared parameter count makes `visit_valueFunc` emit exactly one
arity-mismatch diagnostic (the `Function <name> expects <n>
parameter(s), but received <m>` message), skip the argument
type-checks (the result does not depend on the arguments beyond their
count, nor on remaining fuel), and return the declared return type
(updated to the hint when it was unbound and a hint exists). -/
theorem c6_function_arity_mismatch (fuel : Nat) (v : TypeCheckVisitor) (info : CtxInfo)
    (functionCall : FunctionCall) (d : Declaration)
    (ps : List (Option YType)) (r : Option YType)
    (hfind : v.declarations.find? (fun decl => decl.name == functionCall.funcId) = some d)
    (htype : d.type = some (.function ps r))
    (hlen : functionCall.expressions.length ≠ ps.length) :
    ∃ v2, visitValueFunc (fuel + 2) v info functionCall
        = .ok (Option.or r (v.getHint info), v2)
      ∧ v2.diagnostics = v.diagnostics
          ++ [((Diagnostic.fromMessage
              (formatFunctionArityError functionCall.funcId ps.length
                functionCall.expressions.length)).withFileName
              v.sourceFileName).readParserRuleContext info]
      ∧ v2.types = v.types
      ∧ v2.hints = v.hints
      ∧ v2.deferredTypes = v.deferredTypes
      ∧ (∀ (fuel2 : Nat) (args2 : List ExpressionContext),
          args2.length = functionCall.expressions.length →
          visitValueFunc (fuel2 + 2) v info ⟨functionCall.funcId, args2⟩
            = .ok (Option.or r (v.getHint info), v2)) := by
  obtain ⟨fid, fargs⟩ := functionCall
  simp only [FunctionCall.funcId, FunctionCall.expressions] at hfind hlen ⊢
  have cfp_arity : ∀ (fuel2 : Nat) (v2 : TypeCheckVisitor) (fc2 : FunctionCall)
      (ft : FunctionType), fc2.expressions.length ≠ ft.parameters.length →
      checkFunctionCallParameters (fuel2 + 1) v2 info fid fc2 ft
        = .ok (ft.returnType, { v2 with diagnostics := v2.diagnostics
            ++ [((Diagnostic.fromMessage
                (formatFunctionArityError fid ft.parameters.length
                  fc2.expressions.length)).withFileName
                v2.sourceFileName).readParserRuleContext info] }) := by
    intro fuel2 v2 fc2 ft h
    simp [checkFunctionCallParameters, h]
  rcases r with _ | rt
  · rcases hh : v.getHint info with _ | ht
    · have key : ∀ (fuel2 : Nat) (args2 : List ExpressionContext),
          args2.length = fargs.length →
          visitValueFunc (fuel2 + 2) v info ⟨fid, args2⟩
            = .ok (none, { v with diagnostics := v.diagnostics
                ++ [((Diagnostic.fromMessage
                    (formatFunctionArityError fid ps.length
                      fargs.length)).withFileName
                    v.sourceFileName).readParserRuleContext info] }) := by
        intro fuel2 args2 hlen2
        have h2 : (FunctionCall.mk fid args2).expressions.length
            ≠ ps.length := by simpa [FunctionCall.expressions, hlen2] using hlen
        simp [visitValueFunc, FunctionCall.funcId, FunctionCall.expressions, hfind, htype,
          hh, cfp_arity fuel2 v ⟨fid, args2⟩ ⟨ps, none⟩ h2, FunctionType.toYType, hlen2]
      exact ⟨{ v with diagnostics := v.diagnostics
          ++ [((Diagnostic.fromMessage (formatFunctionArityError fid ps.length
                fargs.length)).withFileName v.sourceFileName).readParserRuleContext info] },
        key fuel fargs rfl, rfl, rfl, rfl, rfl, key⟩
    · have key : ∀ (fuel2 : Nat) (args2 : List ExpressionContext),
          args2.length = fargs.length →
          visitValueFunc (fuel2 + 2) v info ⟨fid, args2⟩
            = .ok (some ht,
              { v with
                newDeclarations := findRemove v.newDeclarations d
                  ++ [{ d with type := some (.function ps (some ht)) }]
                diagnostics := v.diagnostics
                  ++ [((Diagnostic.fromMessage
                      (formatFunctionArityError fid ps.length
                        fargs.length)).withFileName
                      v.sourceFileName).readParserRuleContext info] }) := by
        intro fuel2 args2 hlen2
        have h2 : (FunctionCall.mk fid args2).expressions.length
            ≠ ps.length := by simpa [FunctionCall.expressions, hlen2] using hlen
        simp [visitValueFunc, FunctionCall.funcId, FunctionCall.expressions, hfind, htype,
          hh, cfp_arity fuel2 _ ⟨fid, args2⟩ ⟨ps, some ht⟩ h2,
          FunctionType.setReturnType, FunctionType.toYType, hlen2]
      exact ⟨{ v with
          newDeclarations := findRemove v.newDeclarations d
            ++ [{ d with type := some (.function ps (some ht)) }]
          diagnostics := v.diagnostics
            ++ [((Diagnostic.fromMessage (formatFunctionArityError fid ps.length
                  fargs.length)).withFileName v.sourceFileName).readParserRuleContext info] },
        key fuel fargs rfl, rfl, rfl, rfl, rfl, key⟩
  · have key : ∀ (fuel2 : Nat) (args2 : List ExpressionContext),
        args2.length = fargs.length →
        visitValueFunc (fuel2 + 2) v info ⟨fid, args2⟩
          = .ok (some rt, { v with diagnostics := v.diagnostics
              ++ [((Diagnostic.fromMessage
                  (formatFunctionArityError fid ps.length
                    fargs.length)).withFileName
                  v.sourceFileName).readParserRuleContext info] }) := by
      intro fuel2 args2 hlen2
      have h2 : (FunctionCall.mk fid args2).expressions.length
          ≠ ps.length := by simpa [FunctionCall.expressions, hlen2] using hlen
      simp [visitValueFunc, FunctionCall.funcId, FunctionCall.expressions, hfind, htype,
        cfp_arity fuel2 v ⟨fid, args2⟩ ⟨ps, some rt⟩ h2, hlen2]
    exact ⟨{ v with diagnostics := v.diagnostics
        ++ [((Diagnostic.fromMessage (formatFunctionArityError fid ps.length
              fargs.length)).withFileName v.sourceFileName).readParserRuleContext info] },
      key fuel fargs rfl, rfl, rfl, rfl, rfl, key⟩

/-- Witness for C6: calling the two-parameter `foo` with one argument
emits the `Function foo expects 2 parameters, but received 1`
diagnostic and returns the declared `Boolean` return type. -/
theorem c6_function_arity_mismatch_witness :
    ∃ v2, visitValueFunc 2 arityVisitor (sampleCtxInfo 0)
        ⟨"foo", [.expValue (sampleCtxInfo 1) (.valueNumber (sampleCtxInfo 2))]⟩
        = .ok (some .boolean, v2)
      ∧ v2.diagnostics = arityVisitor.diagnostics
          ++ [((Diagnostic.fromMessage
              (formatFunctionArityError "foo" 2 1)).withFileName
              arityVisitor.sourceFileName).readParserRuleContext (sampleCtxInfo 0)]
      ∧ v2.types = arityVisitor.types
      ∧ v2.hints = arityVisitor.hints
      ∧ v2.deferredTypes = arityVisitor.deferredTypes
      ∧ (∀ (fuel2 : Nat) (args2 : List ExpressionContext), args2.length = 1 →
          visitValueFunc (fuel2 + 2) arityVisitor (sampleCtxInfo 0) ⟨"foo", args2⟩
            = .ok (some .boolean, v2)) :=
  c6_function_arity_mismatch 0 arityVisitor (sampleCtxInfo 0)
    ⟨"foo", [.expValue (sampleCtxInfo 1) (.valueNumber (sampleCtxInfo 2))]⟩
    arityDeclaration [some .number, some .number] (some .boolean) rfl rfl (by decide)

/-- Claim C7: visiting a null literal appends exactly one diagnostic
with the exact message `Null is not a permitted type in Yarn Spinner
2.0 and later` at severity `Error` (which makes the compilation fail),
and resolves the expression's type to `None`. -/
theorem c7_null_literal_error (fuel : Nat) (v : TypeCheckVisitor) (info : CtxInfo) :
    visitValue (fuel + 1) v (.valueNull info)
      = .ok (none, { v with diagnostics := v.diagnostics
          ++ [((Diagnostic.fromMessage nullTypeErrorMessage).withFileName
                v.sourceFileName).readParserRuleContext info] })
    ∧ (((Diagnostic.fromMessage nullTypeErrorMessage).withFileName
          v.sourceFileName).readParserRuleContext info).message = nullTypeErrorMessage
    ∧ (((Diagnostic.fromMessage nullTypeErrorMessage).withFileName
          v.sourceFileName).readParserRuleContext info).severity = .error
    ∧ compilationFails (v.diagnostics
        ++ [((Diagnostic.fromMessage nullTypeErrorMessage).withFileName
              v.sourceFileName).readParserRuleContext info]) = true := by
  refine ⟨rfl, rfl, rfl, ?_⟩
  simp [compilationFails, Diagnostic.fromMessage, Diagnostic.withFileName,
    Diagnostic.readParserRuleContext]

/-- Claim C8: `add_tracking_declarations` appends, for every tracking
node, one declaration named `$Yarn.Internal.Visiting.<node>` of type
`Number` with default `0` and the visit-tracking description, to both
`known_variable_declarations` and `derived_variable_declarations`; the
number of appended declarations equals the number of tracking nodes,
and (for duplicate-free node sets) each node gets exactly one. -/
theorem c8_tracking_declarations (state : CompilationIntermediate) :
    ((addTrackingDeclarations state).knownVariableDeclarations
        = state.knownVariableDeclarations
          ++ state.trackingNodes.map trackingDeclarationForNode)
    ∧ ((addTrackingDeclarations state).derivedVariableDeclarations
        = state.derivedVariableDeclarations
          ++ state.trackingNodes.map trackingDeclarationForNode)
    ∧ (state.trackingNodes.map trackingDeclarationForNode).length
        = state.trackingNodes.length
    ∧ (∀ n ∈ state.trackingNodes,
        (trackingDeclarationForNode n).name = generateUniqueVisitedVariableForNode n
        ∧ (trackingDeclarationForNode n).type = some .number
        ∧ (trackingDeclarationForNode n).defaultValue = some (.number 0)
        ∧ (trackingDeclarationForNode n).description
            = "The generated variable for tracking visits of node " ++ n)
    ∧ (state.trackingNodes.Nodup → ∀ n ∈ state.trackingNodes,
        ((state.trackingNodes.map trackingDeclarationForNode).filter
          (fun d => d.name == generateUniqueVisitedVariableForNode n)).length = 1) := by
  refine ⟨rfl, rfl, state.trackingNodes.length_map _, ?_, ?_⟩
  · intro n _
    exact ⟨rfl, rfl, rfl, rfl⟩
  · intro hnodup n hn
    have key : ∀ m : String,
        ((trackingDeclarationForNode m).name == generateUniqueVisitedVariableForNode n)
          = (m == n) := by
      intro m
      have hname : (trackingDeclarationForNode m).name
          = generateUniqueVisitedVariableForNode m := rfl
      by_cases hmn : m = n
      · subst hmn
        simp [hname]
      · have hne : generateUniqueVisitedVariableForNode m
            ≠ generateUniqueVisitedVariableForNode n :=
          fun hg => hmn (generateUnique_inj m n hg)
        simp [hname, hmn, hne]
    rw [List.filter_map, List.length_map]
    have hfe : (state.trackingNodes.filter
        ((fun d => d.name == generateUniqueVisitedVariableForNode n)
          ∘ trackingDeclarationForNode))
        = state.trackingNodes.filter (fun m => m == n) := by
      apply List.filter_congr
      intro m _
      exact key m
    rw [hfe]
    have hc : (state.trackingNodes.filter (fun m => m == n)).length
        = state.trackingNodes.count n := by
      rw [List.count, List.countP_eq_length_filter]
    rw [hc]
    exact List.count_eq_one_of_mem hnodup hn

/-- Witness for C8: with the single tracking node `Start`, exactly one
`$Yarn.Internal.Visiting.Start` declaration is appended to the known
declarations. -/
theorem c8_tracking_declarations_witness :
    ((addTrackingDeclarations { trackingNodes := ["Start"] }).knownVariableDeclarations
      = [] ++ ["Start"].map trackingDeclarationForNode)
    ∧ (((["Start"] : List String).map trackingDeclarationForNode).filter
        (fun d => d.name == generateUniqueVisitedVariableForNode "Start")).length = 1 :=
  ⟨(c8_tracking_declarations { trackingNodes := ["Start"] }).1,
    (c8_tracking_declarations { trackingNodes := ["Start"] }).2.2.2.2
      (by simp) "Start" (by simp)⟩

/-- Claim C9: in `check_operation`, when visiting the terms yields no
concrete type, a singleton `permitted_types` list is adopted as the
expression type; otherwise the operator method table over the built-in
types is consulted, adopting the unique implementing type when exactly
one exists, and otherwise emitting one diagnostic containing the words
of `canNotBeDeterminedPhrase` and returning `None`. -/
theorem c9_operator_type_resolution (fuel : Nat) (v v1 : TypeCheckVisitor)
    (context : CtxInfo) (terms : List Term) (termTypes : List YType)
    (op : Operator) (description : String) (permitted : List YType)
    (hcollect : collectTermTypes fuel v terms [] none = .ok ((termTypes, none), v1)) :
    (∀ t, permitted = [t] →
      resolveExpressionType v1 context none (some op) permitted = .resolved (some t) v1)
    ∧ (permitted.length ≠ 1 →
        ((explicitlyConstructable.filter (fun t => typeHasMethod t op)).length = 1 →
          resolveExpressionType v1 context none (some op) permitted
            = .resolved
                (explicitlyConstructable.filter (fun t => typeHasMethod t op)).head? v1)
        ∧ ((explicitlyConstructable.filter (fun t => typeHasMethod t op)).length ≠ 1 →
            ∃ d, checkOperation (fuel + 1) v context terms (some op) description permitted
                = .ok (none, { v1 with diagnostics := v1.diagnostics ++ [d] })
              ∧ canNotBeDeterminedPhrase.data <:+: d.message.data)) := by
  refine ⟨?_, ?_⟩
  · intro t hp
    subst hp
    simp [resolveExpressionType]
  · intro hp
    have hpb : (permitted.length == 1) = false := by
      simpa using hp
    constructor
    · intro h1
      simp [resolveExpressionType, hpb, h1]
    · intro h1
      have h1b : ((explicitlyConstructable.filter
          (fun t => typeHasMethod t op)).length == 1) = false := by
        simpa using h1
      rcases hcase : (explicitlyConstructable.filter
          (fun t => typeHasMethod t op)).length with _ | n
      · refine ⟨((Diagnostic.fromMessage
            (formatUndeterminedTypeError context.textWithWhitespace)).withFileName
            v1.sourceFileName).readParserRuleContext context, ?_, ?_⟩
        · simp [checkOperation, hcollect, resolveExpressionType, hpb, hcase, h1b]
        · exact infix_of_undetermined context.textWithWhitespace
      · refine ⟨((Diagnostic.fromMessage
            (formatAmbiguousTypeError context.textWithWhitespace
              (String.intercalate ", or "
                ((explicitlyConstructable.filter
                  (fun t => typeHasMethod t op)).map typeName)))).withFileName
            v1.sourceFileName).readParserRuleContext context, ?_, ?_⟩
        · have hgt : (explicitlyConstructable.filter
              (fun t => typeHasMethod t op)).length > 1 := by
            omega
          simp [checkOperation, hcollect, resolveExpressionType, hpb, h1b, hgt]
        · exact infix_of_ambiguous context.textWithWhitespace _

/-- Witness for C9: the `+` operator is implemented by both `String`
and `Number`, so an operand-typeless `+` expression gets one
cannot-be-determined diagnostic and resolves to `None`. -/
theorem c9_operator_type_resolution_witness :
    ∃ d, checkOperation 2 sampleVisitor (sampleCtxInfo 0) [] (some .add) "+" []
        = .ok (none, { sampleVisitor with
            diagnostics := sampleVisitor.diagnostics ++ [d] })
      ∧ canNotBeDeterminedPhrase.data <:+: d.message.data :=
  ((c9_operator_type_resolution 1 sampleVisitor sampleVisitor (sampleCtxInfo 0) [] []
    .add "+" [] rfl).2 (by decide)).2 (by decide)

/-- Claim C10: `Compilation::combine` unwraps every per-file
compilation's `program`, so it succeeds when all programs are present
and panics (instead of returning a result) as soon as any compilation
in the sequence has `program = None`. -/
theorem c10_combine_unwraps_programs (comps : List Compilation)
    (stm : StringTableManager) :
    ((∀ c ∈ comps, c.program.isSome) →
      (Compilation.combine comps stm).isOk = true)
    ∧ ((∃ c ∈ comps, c.program = none) →
      Compilation.combine comps stm = .error "called Option::unwrap() on a None value") := by
  constructor
  · intro h
    obtain ⟨r, hr⟩ := combineLoop_ok_of_all_some comps h [] [] [] [] []
    simp [Compilation.combine, hr, Bind.bind, Except.bind, Except.isOk, Except.toBool]
  · intro h
    have hr := combineLoop_error_of_none comps h [] [] [] [] []
    simp [Compilation.combine, hr, Bind.bind, Except.bind]

/-- Witness for C10: combining one compilation with a program succeeds;
combining a sequence that contains a program-less compilation hits the
`unwrap` panic. -/
theorem c10_combine_unwraps_programs_witness :
    (Compilation.combine [{ program := some ⟨["A"]⟩ }] ⟨[]⟩).isOk = true
    ∧ Compilation.combine [{ program := some ⟨["A"]⟩ }, { program := none }] ⟨[]⟩
        = .error "called Option::unwrap() on a None value" :=
  ⟨(c10_combine_unwraps_programs [{ program := some ⟨["A"]⟩ }] ⟨[]⟩).1
      (by intro c hc; simp at hc; subst hc; rfl),
    (c10_combine_unwraps_programs [{ program := some ⟨["A"]⟩ }, { program := none }]
      ⟨[]⟩).2 ⟨{ program := none }, by simp, rfl⟩⟩

end YarnSlinger
